import Mathlib

/-!
Verification of the Pi_cam repository's camera orchestration core:
shallow embeddings of the capture supervisor, sequence allocation,
locking discipline, background processing queue and mode-switch logic,
with theorems settling the specification's claims.
-/

/-! ### Python primitives used by the sources -/

/-- Whitespace characters stripped by Python's `int()`. -/
def pyIsSpace (c : Char) : Bool :=
  c = ' ' || c = '\t' || c = '\n' || c = '\r' || c = '\x0b' || c = '\x0c'

/-- Numeric value of an ASCII digit character. -/
def digitVal (c : Char) : Nat := c.toNat - '0'.toNat

/-- Tail of a Python integer-literal body after its first digit: digits with
single underscores allowed between digits.  `p` records whether the previous
character was an underscore. -/
def pyIntGo (p : Bool) (acc : Nat) : List Char → Option Nat
  | [] => if p then none else some acc
  | c :: rest =>
      if c.isDigit then pyIntGo false (acc * 10 + digitVal c) rest
      else if c = '_' && !p then pyIntGo true acc rest
      else none

/-- Unsigned body of a Python integer literal: a digit followed by digits and
single interior underscores. -/
def pyIntBody : List Char → Option Nat
  | [] => none
  | c :: rest => if c.isDigit then pyIntGo false (digitVal c) rest else none

/-- The whitespace-stripped character list of a string. -/
def pyStrip (s : String) : List Char :=
  ((s.toList.dropWhile pyIsSpace).reverse.dropWhile pyIsSpace).reverse

/-- Python `int(s)`: strip whitespace, optional sign, digit body; `none` when
a `ValueError` would be raised. -/
def pyInt? (s : String) : Option Int :=
  match pyStrip s with
  | [] => none
  | c :: rest =>
      if c = '+' then (pyIntBody rest).map (fun m : Nat => (m : Int))
      else if c = '-' then (pyIntBody rest).map (fun m : Nat => -(m : Int))
      else (pyIntBody (c :: rest)).map (fun m : Nat => (m : Int))

/-- Python slice `f[5:8]`. -/
def pySlice58 (s : String) : String := String.mk ((s.toList.drop 5).take 3)

/-! ### `get_next_photo_number` from `Pi_cam_raw.py` -/

/-- Whether the first list is an initial segment of the second. -/
def chStarts : List Char → List Char → Bool
  | [], _ => true
  | _ :: _, [] => false
  | a :: as, b :: bs => a = b && chStarts as bs

/-- Python `s.startswith(pre)`. -/
def pyStarts (s pre : String) : Bool := chStarts pre.toList s.toList

/-- Python `s.endswith(suf)`. -/
def pyEnds (s suf : String) : Bool := chStarts suf.toList.reverse s.toList.reverse

/-- The filter `f.startswith("photo") and f.endswith(".jpg")`. -/
def isJpgPhoto (f : String) : Bool := pyStarts f "photo" && pyEnds f ".jpg"

/-- Python `max` over a list (`none` on the empty list, where an exception
would be raised). -/
def pyListMax? : List Int → Option Int
  | [] => none
  | a :: rest => some (rest.foldl max a)

/-- `get_next_photo_number` of `Pi_cam_raw.py`: list `photo*.jpg` files,
parse `int(f[5:8])` for each (skipping failures), return `max(numbers) + 1`
(1 with no files or no parses). -/
def getNextPhotoNumber (dir : List String) : Int :=
  let jpgFiles := dir.filter isJpgPhoto
  if jpgFiles.isEmpty then 1
  else
    let numbers := jpgFiles.filterMap (fun f => pyInt? (pySlice58 f))
    match pyListMax? numbers with
    | none => 1
    | some m => m + 1

/-- Value of a digit string. -/
def natOfDigits (l : List Char) : Nat := l.foldl (fun a c => a * 10 + digitVal c) 0

/-- The number a file named `photo<digits>.jpg` actually carries (all of its
digits, not just the first three).  `none` for any other filename. -/
def photoJpgNum? (f : String) : Option Nat :=
  if isJpgPhoto f then
    let mid := (f.toList.drop 5).take (f.length - 9)
    if !mid.isEmpty && mid.all Char.isDigit then some (natOfDigits mid) else none
  else none

/-- Largest number carried by a `photo<digits>.jpg` file in the directory. -/
def maxPhotoJpgNum (dir : List String) : Nat :=
  (dir.filterMap photoJpgNum?).foldl max 0

/-! ### `photo_counter` seeding in `examples/dng_camera_led.py` -/

/-- The glob filter `photo*.dng` used by `get_dng_files`. -/
def isDngPhoto (f : String) : Bool := pyStarts f "photo" && pyEnds f ".dng"

/-- `get_dng_files` of `examples/dng_camera_led.py`, reduced to the filenames it
collects from the `dng` folder. -/
def getDngFiles (dir : List String) : List String := dir.filter isDngPhoto

/-- The seed `camera_state['photo_counter'] = len(get_dng_files()) + 1`
performed once inside `initialize_camera` (line 177). -/
def photoCounterSeed (dir : List String) : Nat := (getDngFiles dir).length + 1

/-- The number a file named `photo<digits>.dng` actually carries. -/
def photoDngNum? (f : String) : Option Nat :=
  if isDngPhoto f then
    let mid := (f.toList.drop 5).take (f.length - 9)
    if !mid.isEmpty && mid.all Char.isDigit then some (natOfDigits mid) else none
  else none

/-- Largest number carried by a `photo<digits>.dng` file in the directory. -/
def maxPhotoDngNum (dir : List String) : Nat :=
  (dir.filterMap photoDngNum?).foldl max 0

/-- Python `f"{n:03d}"`: zero-pad to a total width of three characters. -/
def pyFormat03d (n : Int) : String :=
  let pad := fun (m w : Nat) =>
    let s := toString m
    String.mk (List.replicate (w - s.length) '0') ++ s
  if n < 0 then "-" ++ pad n.natAbs 2 else pad n.toNat 3

/-- One `fast_capture_photo` call of `Pi_cam_raw.py`, restricted to its
numbering behaviour: it calls `get_next_photo_number()` afresh (line 199),
then writes `photos/jpg/photo{num:03d}.jpg`.  Returns the assigned number and
the directory afterwards. -/
def fastCapturePhotoNumbering (dir : List String) : Int × List String :=
  let n := getNextPhotoNumber dir
  (n, dir ++ ["photo" ++ pyFormat03d n ++ ".jpg"])

/-! ### The exclusive camera lock (`camera_lock`) -/

/-- One primitive step of a device-touching function: acquiring/releasing
`camera_lock`, or an operation on the `picam2` device handle. -/
inductive LockAct
  | acq
  | rel
  | dev (op : String)
deriving DecidableEq, Repr

/-- `simple_dng_capture` of `Pi_cam_raw.py` (lines 176-191): capture request,
save JPG, save DNG, release the request — with no lock acquisition. -/
def simpleDngCaptureActs : List LockAct :=
  [.dev "capture_request", .dev "save_main_jpg", .dev "save_dng",
   .dev "request_release"]

/-- The `/fast_capture` route of `Pi_cam_raw.py` (line 474) invokes
`simple_dng_capture`. -/
def fastCaptureRouteActs : List LockAct := simpleDngCaptureActs

/-- `fast_capture_photo` of `Pi_cam_raw.py` (lines 193-242): the whole body
runs inside `with camera_lock`. -/
def fastCapturePhotoActs : List LockAct :=
  [.acq, .dev "capture_request", .dev "save_main_jpg", .dev "make_array_raw",
   .dev "get_metadata", .dev "request_release", .rel]

/-- `capture_photo` (`photo_type='normal'`) of `working_code/Pi_cam.py`
(lines 138-165): stop/configure/start/capture under `with camera_lock`. -/
def capturePhotoNormalActs : List LockAct :=
  [.acq, .dev "stop", .dev "configure", .dev "start", .dev "capture_file",
   .rel]

/-- `capture_photo` (`photo_type='highrez'`) of `working_code/Pi_cam.py`:
switch up, capture, switch back, all under `with camera_lock`. -/
def capturePhotoHighrezActs : List LockAct :=
  [.acq, .dev "stop", .dev "configure", .dev "start", .dev "capture_file",
   .dev "stop", .dev "configure", .dev "start", .rel]

/-- `capture_dng` of `working_code/Pi_cam.py` (lines 223-260): raw switch,
capture, switch back, all under `with camera_lock`. -/
def captureDngActs : List LockAct :=
  [.acq, .dev "stop", .dev "configure", .dev "start", .dev "capture_file",
   .dev "stop", .dev "configure", .dev "start", .rel]

/-- Checks that every device operation in the action list happens while the
lock is held (`d` is the current hold depth). -/
def devOpsUnderLock : Nat → List LockAct → Bool
  | _, [] => true
  | d, .acq :: r => devOpsUnderLock (d + 1) r
  | d, .rel :: r => devOpsUnderLock (d - 1) r
  | d, .dev _ :: r => decide (0 < d) && devOpsUnderLock d r

/-! ### The background queue of `Pi_cam_raw.py` -/

/-- Python `queue.Queue` fullness: a queue is full iff it has a positive
`maxsize` bound and holds at least that many items (`maxsize <= 0` means
unbounded). -/
def pyQueueFull (maxsize qlen : Nat) : Bool := 0 < maxsize && maxsize ≤ qlen

/-- `raw_queue = queue.Queue()` (`Pi_cam_raw.py` line 30): the default
`maxsize` is 0, i.e. unbounded. -/
def rawQueueMaxsize : Nat := 0

/-- `dng_queue = queue.Queue(maxsize=10)` (`working_code/Pi_cam.py` line 26);
declared with capacity 10 but never enqueued to anywhere in that file. -/
def dngQueueMaxsize : Nat := 10

/-- A (blocking, default-argument) `put` call: `none` when the call would
block because the queue is full, otherwise the new contents. -/
def pyQueuePut {α : Type} (maxsize : Nat) (items : List α) (x : α) :
    Option (List α) :=
  if pyQueueFull maxsize items.length then none else some (items ++ [x])

/-! ### `background_dng_processor` of `Pi_cam_raw.py`, one queue item -/

/-- Which rich-container encode succeeded for an item. -/
inductive DngMethod
  | pidng
  | npzFallback
deriving DecidableEq, Repr

/-- Observable per-item events: the `.npy` raw-backup write, the `.dng`
(pidng) write, the `.npz` compressed fallback write, and the outer
`"DNG processing error"` log. -/
inductive ProcEv
  | npyWrite
  | dngWrite
  | npzWrite
  | errorLog
deriving DecidableEq, Repr

/-- Environment of one item's processing: whether `np.save` succeeds, whether
the pidng import-and-convert path succeeds, whether the `np.savez_compressed`
fallback succeeds. -/
structure ProcEnv where
  npySaveOk : Bool
  pidngOk : Bool
  npzOk : Bool
deriving DecidableEq, Repr

/-- Outcome of processing one queue item. -/
structure ProcOutcome where
  npyWritten : Bool
  method : Option DngMethod
  errorLogged : Bool
  trace : List ProcEv
deriving DecidableEq, Repr

/-- The body of `background_dng_processor` for one dequeued item
(`Pi_cam_raw.py` lines 66-174): save the `.npy` raw backup first (a failure
escapes to the outer handler, which logs and skips the encode entirely); then
try the pidng DNG encode; on its failure write the `.npz` compressed fallback;
a fallback failure also escapes to the outer handler. -/
def processQueueItem (env : ProcEnv) : ProcOutcome :=
  if !env.npySaveOk then
    { npyWritten := false, method := none, errorLogged := true,
      trace := [.errorLog] }
  else if env.pidngOk then
    { npyWritten := true, method := some .pidng, errorLogged := false,
      trace := [.npyWrite, .dngWrite] }
  else if env.npzOk then
    { npyWritten := true, method := some .npzFallback, errorLogged := false,
      trace := [.npyWrite, .npzWrite] }
  else
    { npyWritten := true, method := none, errorLogged := true,
      trace := [.npyWrite, .errorLog] }

/-! ### `capture_single_dng` of `examples/dng_camera_led.py` -/

/-- The `camera_state` dictionary (lines 26-31): device handle presence,
`initialized`, `capturing`, `photo_counter`. -/
structure CamState where
  picamPresent : Bool
  camInit : Bool
  capturing : Bool
  photoCounter : Nat
deriving DecidableEq, Repr

/-- The distinguishable error strings `capture_single_dng` can return. -/
inductive CapErr
  | notInitialized
  | alreadyCapturing
  | failedToStart
  | timedOut
  | fileNotFound
deriving DecidableEq, Repr

/-- The dictionary `capture_single_dng` returns, reduced to the fields the
claims speak about. -/
structure CapResult where
  success : Bool
  errorKind : Option CapErr
  restartRequired : Bool
  photoNumber : Option Nat
deriving DecidableEq, Repr

/-- What happens inside the forced-reset `try` block on the timeout path:
both `stop()` and `close()` succeed (so the handle is discarded and the
session marked uninitialized), or one of them raises (the cleanup `except`
swallows it, leaving the session state unchanged). -/
inductive CleanupOutcome
  | ok
  | stopRaised
  | closeRaised
deriving DecidableEq, Repr

/-- Environment of one supervised capture: whether the capture thread signals
`started` within the 2 s start timeout, whether it completes within the 10 s
join timeout, whether the output file exists afterwards, and how the forced
cleanup behaves if it runs. -/
structure CapEnv where
  started : Bool
  completedOk : Bool
  fileExists : Bool
  cleanup : CleanupOutcome
deriving DecidableEq, Repr

/-- `capture_single_dng` (lines 204-309).  Returns the new `camera_state`, the
result dictionary, and the list of device operations the supervisor itself
performed.  The `finally` block resets `capturing` on every exit path. -/
def captureSingleDng (st : CamState) (env : CapEnv) :
    CamState × CapResult × List String :=
  if !st.camInit then
    (st, { success := false, errorKind := some .notInitialized,
           restartRequired := false, photoNumber := none }, [])
  else if st.capturing then
    (st, { success := false, errorKind := some .alreadyCapturing,
           restartRequired := false, photoNumber := none }, [])
  else if !env.started then
    ({ st with capturing := false },
     { success := false, errorKind := some .failedToStart,
       restartRequired := false, photoNumber := none }, [])
  else if !env.completedOk then
    match env.cleanup with
    | .ok =>
        ({ st with picamPresent := false, camInit := false, capturing := false },
         { success := false, errorKind := some .timedOut,
           restartRequired := true, photoNumber := none }, ["stop", "close"])
    | .stopRaised =>
        ({ st with capturing := false },
         { success := false, errorKind := some .timedOut,
           restartRequired := true, photoNumber := none }, ["stop"])
    | .closeRaised =>
        ({ st with capturing := false },
         { success := false, errorKind := some .timedOut,
           restartRequired := true, photoNumber := none }, ["stop", "close"])
  else if !env.fileExists then
    ({ st with capturing := false },
     { success := false, errorKind := some .fileNotFound,
       restartRequired := false, photoNumber := none }, [])
  else
    ({ st with photoCounter := st.photoCounter + 1, capturing := false },
     { success := true, errorKind := none, restartRequired := false,
       photoNumber := some st.photoCounter }, [])

/-- `initialize_camera` of `examples/dng_camera_led.py` (lines 123-190):
no-op when already initialized; otherwise (when the hardware calls succeed)
install a fresh handle, mark initialized and seed the photo counter from the
`dng` directory. -/
def initCamera (st : CamState) (initOk : Bool) (dngDir : List String) :
    CamState × Bool :=
  if st.camInit then (st, true)
  else if initOk then
    ({ picamPresent := true, camInit := true, capturing := st.capturing,
       photoCounter := photoCounterSeed dngDir }, true)
  else (st, false)

/-- Outcome of the `/capture_single_dng` route. -/
structure RouteOutcome where
  state : CamState
  result : CapResult
  reinitAttempts : Nat
  cameraRestarted : Bool
deriving DecidableEq, Repr

/-- `capture_single_dng_route` (lines 374-393): reject when already
capturing; otherwise run `capture_single_dng`, and on a failed result that
carries `restart_required` make a single `initialize_camera` attempt. -/
def captureSingleDngRoute (st : CamState) (env : CapEnv) (initOk : Bool)
    (dngDir : List String) : RouteOutcome :=
  if st.capturing then
    { state := st,
      result := { success := false, errorKind := some .alreadyCapturing,
                  restartRequired := false, photoNumber := none },
      reinitAttempts := 0, cameraRestarted := false }
  else
    let r := captureSingleDng st env
    if !r.2.1.success && r.2.1.restartRequired then
      let ir := initCamera r.1 initOk dngDir
      { state := ir.1, result := r.2.1, reinitAttempts := 1,
        cameraRestarted := ir.2 }
    else
      { state := r.1, result := r.2.1, reinitAttempts := 0,
        cameraRestarted := false }

/-- A serial sequence of supervised captures; returns the final state and,
per capture, the assigned sequence number (`none` when the capture did not
succeed). -/
def runCaptures (st : CamState) : List CapEnv → CamState × List (Option Nat)
  | [] => (st, [])
  | e :: es =>
      let r := captureSingleDng st e
      let rest := runCaptures r.1 es
      (rest.1, r.2.1.photoNumber :: rest.2)

/-! ### `on_shutter_pressed` of `Main/camera_viewfinder.py` -/

/-- Camera configurations the viewfinder and `Pi_cam.py` switch between. -/
inductive VfMode
  | preview
  | highres
  | raw
deriving DecidableEq, Repr

/-- Observable steps of a mode switch: stream stop/start, `time.sleep`
(milliseconds), applying a configuration, the two restoring `set_controls`
calls, and the still capture itself. -/
inductive VfEv
  | camStop
  | pySleep (ms : Nat)
  | camConfigure (m : VfMode)
  | controlsRestore
  | controlsAfMode (v : Nat)
  | camStart
  | camCaptureFile
deriving DecidableEq, Repr

/-- Viewfinder state touched by `on_shutter_pressed`: the remembered analog
gain, the focus-lock flag, the photo counter and the loop-pause flag. -/
structure VfState where
  currentGain : ℚ
  focusLocked : Bool
  photosTaken : Nat
  capturing : Bool
deriving DecidableEq, Repr

/-- The control values applied to the camera (the fields
`on_shutter_pressed` sets when restoring preview mode). -/
structure CamCtrls where
  contrast : ℚ
  saturation : ℚ
  sharpness : ℚ
  aeEnable : Bool
  exposureTime : Nat
  analogueGain : ℚ
  afMode : Nat
deriving DecidableEq, Repr

/-- The viewfinder's switch into high-res mode (lines 1134-1147): stop,
sleep 0.2 s, configure, start, sleep 0.5 s. -/
def vfSwitchToHighres : List VfEv :=
  [.camStop, .pySleep 200, .camConfigure .highres, .camStart, .pySleep 500]

/-- The viewfinder's switch back to preview (lines 1155-1188): stop,
sleep 0.2 s, configure, re-apply the surviving controls (analog gain then
focus-lock state), start, sleep 0.3 s. -/
def vfSwitchToPreview (focusLocked : Bool) : List VfEv :=
  [.camStop, .pySleep 200, .camConfigure .preview, .controlsRestore,
   .controlsAfMode (if focusLocked then 0 else 2), .camStart, .pySleep 300]

/-- The full success trace of `on_shutter_pressed`. -/
def onShutterTrace (focusLocked : Bool) : List VfEv :=
  vfSwitchToHighres ++ [.camCaptureFile] ++ vfSwitchToPreview focusLocked

/-- `capture_dng` of `working_code/Pi_cam.py` (lines 227-260), as a mode
switch trace: stop, configure raw, start, sleep 0.3 s, capture, stop,
configure normal, start, sleep 0.2 s — with no re-applied controls. -/
def picamCaptureDngTrace : List VfEv :=
  [.camStop, .camConfigure .raw, .camStart, .pySleep 300, .camCaptureFile,
   .camStop, .camConfigure .preview, .camStart, .pySleep 200]

/-- Modelled from the spec: the mode-switch step order claim C8 asserts
((3) stop; (4) settle delay — none for Preview, ~200 ms for HighResStill,
~300 ms for RawStill; (5) apply configuration; (6) restart; (7) re-apply
surviving settings).  For comparison against the code's traces. -/
def claimedSwitchTrace (m : VfMode) (focusLocked : Bool) : List VfEv :=
  [.camStop]
    ++ (match m with
        | .preview => []
        | .highres => [.pySleep 200]
        | .raw => [.pySleep 300])
    ++ [.camConfigure m, .camStart, .controlsRestore,
        .controlsAfMode (if focusLocked then 0 else 2)]

/-- Result of one `on_shutter_pressed` call. -/
structure ShutterOutcome where
  state : VfState
  ctrls : CamCtrls
  assignedNumber : Nat
  trace : List VfEv
deriving DecidableEq, Repr

/-- `on_shutter_pressed` (lines 1109-1221), parameterized by whether the
high-res capture-and-restore body succeeds.  The filename uses
`photos_taken + 1`; the counter is incremented at line 1191 only after the
capture and the switch back succeeded; on an exception the handler restarts
preview without re-applying controls and the counter is untouched. -/
def onShutterPressed (vs : VfState) (c0 : CamCtrls) (captureOk : Bool) :
    ShutterOutcome :=
  if captureOk then
    { state := { vs with photosTaken := vs.photosTaken + 1, capturing := false },
      ctrls := { contrast := 1.2, saturation := 1.1, sharpness := 1.0,
                 aeEnable := false, exposureTime := 20000,
                 analogueGain := vs.currentGain,
                 afMode := if vs.focusLocked then 0 else 2 },
      assignedNumber := vs.photosTaken + 1,
      trace := onShutterTrace vs.focusLocked }
  else
    { state := { vs with capturing := false },
      ctrls := c0,
      assignedNumber := vs.photosTaken + 1,
      trace := [.camStop, .pySleep 100, .camConfigure .preview, .camStart,
                .pySleep 300] }

/-! ### Bounds on 3-character integer parses -/

theorem digitVal_le (c : Char) (hd : c.isDigit = true) : digitVal c ≤ 9 := by
  unfold digitVal
  simp [Char.isDigit] at hd
  have h1 : c.toNat ≤ 57 := hd.2
  have h0 : '0'.toNat = 48 := rfl
  omega

theorem pyIntGo_lt (l : List Char) : ∀ p acc n, pyIntGo p acc l = some n →
    n < (acc + 1) * 10 ^ l.length := by
  induction l with
  | nil =>
      intro p acc n h
      cases p with
      | false =>
          simp [pyIntGo] at h
          subst h
          simp
      | true => simp [pyIntGo] at h
  | cons c rest ih =>
      intro p acc n h
      simp only [pyIntGo] at h
      by_cases hd : c.isDigit
      · simp only [hd, if_pos] at h
        have hrec := ih false (acc * 10 + digitVal c) n h
        have hc9 : digitVal c ≤ 9 := digitVal_le c hd
        calc n < (acc * 10 + digitVal c + 1) * 10 ^ rest.length := hrec
          _ ≤ ((acc + 1) * 10) * 10 ^ rest.length := by nlinarith
          _ = (acc + 1) * 10 ^ (rest.length + 1) := by ring
          _ = (acc + 1) * 10 ^ (c :: rest).length := by simp
      · simp only [hd, Bool.false_eq_true, if_false] at h
        by_cases hu : (c = '_' && !p) = true
        · simp only [hu, if_pos] at h
          have hrec := ih true acc n h
          have h10 : (10:Nat) ^ rest.length ≤ 10 ^ (rest.length + 1) :=
            Nat.pow_le_pow_right (by norm_num) (by omega)
          calc n < (acc + 1) * 10 ^ rest.length := hrec
            _ ≤ (acc + 1) * 10 ^ (rest.length + 1) := Nat.mul_le_mul_left _ h10
            _ = (acc + 1) * 10 ^ (c :: rest).length := by simp
        · simp [hu] at h

theorem pyIntBody_lt (l : List Char) (m : Nat) (h : pyIntBody l = some m) :
    m < 10 ^ l.length := by
  match l with
  | [] => simp [pyIntBody] at h
  | c :: rest =>
      simp only [pyIntBody] at h
      by_cases hd : c.isDigit
      · simp only [hd, if_pos] at h
        have hrec := pyIntGo_lt rest false (digitVal c) m h
        have hc9 : digitVal c ≤ 9 := digitVal_le c hd
        calc m < (digitVal c + 1) * 10 ^ rest.length := hrec
          _ ≤ 10 * 10 ^ rest.length := by nlinarith
          _ = 10 ^ (c :: rest).length := by rw [List.length_cons]; ring
      · simp [hd] at h

theorem pyStrip_length_le (s : String) : (pyStrip s).length ≤ s.toList.length := by
  unfold pyStrip
  have h1 := (List.dropWhile_sublist (l := s.toList) pyIsSpace).length_le
  have h2 := (List.dropWhile_sublist
      (l := (s.toList.dropWhile pyIsSpace).reverse) pyIsSpace).length_le
  simp only [List.length_reverse] at h2 ⊢
  omega

theorem pyInt?_lt_of_short (s : String) (n : Int) (hs : s.toList.length ≤ 3)
    (h : pyInt? s = some n) : n < 1000 := by
  unfold pyInt? at h
  have hlen : (pyStrip s).length ≤ 3 := le_trans (pyStrip_length_le s) hs
  match hm : pyStrip s with
  | [] => rw [hm] at h; simp at h
  | c :: rest =>
      rw [hm] at hlen h
      simp only at h
      by_cases hplus : c = '+'
      · rw [if_pos hplus] at h
        cases hb : pyIntBody rest with
        | none => rw [hb] at h; simp at h
        | some m =>
            rw [hb] at h
            simp only [Option.map_some', Option.some.injEq] at h
            have hlt := pyIntBody_lt rest m hb
            have hr : rest.length ≤ 2 := by simp at hlen; omega
            have hpow : (10:Nat) ^ rest.length ≤ 10 ^ 2 :=
              Nat.pow_le_pow_right (by norm_num) hr
            omega
      · by_cases hminus : c = '-'
        · rw [if_neg hplus, if_pos hminus] at h
          cases hb : pyIntBody rest with
          | none => rw [hb] at h; simp at h
          | some m =>
              rw [hb] at h
              simp only [Option.map_some', Option.some.injEq] at h
              omega
        · rw [if_neg hplus, if_neg hminus] at h
          cases hb : pyIntBody (c :: rest) with
          | none => rw [hb] at h; simp at h
          | some m =>
              rw [hb] at h
              simp only [Option.map_some', Option.some.injEq] at h
              have hlt := pyIntBody_lt (c :: rest) m hb
              have hpow : (10:Nat) ^ (c :: rest).length ≤ 10 ^ 3 :=
                Nat.pow_le_pow_right (by norm_num) hlen
              omega

/-! ### Helper lemmas about the supervised-capture state machine -/

theorem captureSingleDng_success_spec (st : CamState) (env : CapEnv)
    (h : (captureSingleDng st env).2.1.success = true) :
    env.fileExists = true ∧
    (captureSingleDng st env).2.1.photoNumber = some st.photoCounter ∧
    (captureSingleDng st env).1.photoCounter = st.photoCounter + 1 := by
  rcases st with ⟨p, i, c, n⟩
  rcases env with ⟨s, co, fe, cl⟩
  cases i <;> cases c <;> cases s <;> cases co <;> cases fe <;> cases cl <;>
    simp_all [captureSingleDng]

theorem captureSingleDng_failure_spec (st : CamState) (env : CapEnv)
    (h : (captureSingleDng st env).2.1.success = false) :
    (captureSingleDng st env).2.1.photoNumber = none ∧
    (captureSingleDng st env).1.photoCounter = st.photoCounter := by
  rcases st with ⟨p, i, c, n⟩
  rcases env with ⟨s, co, fe, cl⟩
  cases i <;> cases c <;> cases s <;> cases co <;> cases fe <;> cases cl <;>
    simp_all [captureSingleDng]

theorem runCaptures_numbers (envs : List CapEnv) : ∀ st : CamState,
    (runCaptures st envs).2.filterMap id =
      List.range' st.photoCounter ((runCaptures st envs).2.filterMap id).length ∧
    (runCaptures st envs).1.photoCounter =
      st.photoCounter + ((runCaptures st envs).2.filterMap id).length := by
  induction envs with
  | nil => intro st; simp [runCaptures]
  | cons e es ih =>
      intro st
      have hmain : runCaptures st (e :: es) =
          ((runCaptures (captureSingleDng st e).1 es).1,
           (captureSingleDng st e).2.1.photoNumber ::
             (runCaptures (captureSingleDng st e).1 es).2) := rfl
      have ihr := ih (captureSingleDng st e).1
      by_cases hs : (captureSingleDng st e).2.1.success = true
      · obtain ⟨hfe, hnum, hctr⟩ := captureSingleDng_success_spec st e hs
        rw [hmain]
        simp only [hnum, List.filterMap_cons, id] at ihr ⊢
        rw [hctr] at ihr
        constructor
        · simp only [List.length_cons]
          rw [List.range'_succ]
          exact congrArg (st.photoCounter :: ·) ihr.1
        · have h2 := ihr.2
          simp only [List.length_cons]
          omega
      · have hs' : (captureSingleDng st e).2.1.success = false := by
          simpa using hs
        obtain ⟨hnum', hctr'⟩ := captureSingleDng_failure_spec st e hs'
        rw [hmain]
        simp only [hnum', List.filterMap_cons, id] at ihr ⊢
        rw [hctr'] at ihr
        exact ihr

/-! ### Helper lemmas about sequence numbering -/

theorem foldl_max_le_int (rest : List Int) : ∀ a B : Int, a ≤ B →
    (∀ x ∈ rest, x ≤ B) → rest.foldl max a ≤ B := by
  induction rest with
  | nil => intro a B ha _; simpa using ha
  | cons x xs ih =>
      intro a B ha hx
      simp only [List.foldl_cons]
      exact ih (max a x) B (max_le ha (hx x (by simp)))
        (fun y hy => hx y (by simp [hy]))

theorem pyListMax?_le {l : List Int} {m B : Int} (h : pyListMax? l = some m)
    (hB : ∀ x ∈ l, x ≤ B) : m ≤ B := by
  cases l with
  | nil => simp [pyListMax?] at h
  | cons a rest =>
      simp only [pyListMax?, Option.some.injEq] at h
      subst h
      exact foldl_max_le_int rest a B (hB a (by simp))
        (fun y hy => hB y (by simp [hy]))

theorem foldl_max_init_le_nat (l : List Nat) : ∀ init : Nat,
    init ≤ l.foldl max init := by
  induction l with
  | nil => intro init; simp
  | cons x xs ih =>
      intro init
      simp only [List.foldl_cons]
      exact le_trans (le_max_left init x) (ih (max init x))

theorem le_foldl_max_nat (l : List Nat) : ∀ (a init : Nat), a ∈ l →
    a ≤ l.foldl max init := by
  induction l with
  | nil => intro a init h; simp at h
  | cons x xs ih =>
      intro a init h
      simp only [List.foldl_cons]
      rcases List.mem_cons.mp h with rfl | h2
      · exact le_trans (le_max_right init a) (foldl_max_init_le_nat xs (max init a))
      · exact ih a (max init x) h2

theorem pySlice58_length_le (f : String) : (pySlice58 f).toList.length ≤ 3 := by
  show ((f.toList.drop 5).take 3).length ≤ 3
  simp

theorem getNextPhotoNumber_le (dir : List String) :
    getNextPhotoNumber dir ≤ 1000 := by
  unfold getNextPhotoNumber
  by_cases he : (dir.filter isJpgPhoto).isEmpty
  · simp [he]
  · simp only [he, Bool.false_eq_true, if_false]
    cases hmx : pyListMax? ((dir.filter isJpgPhoto).filterMap
        (fun f => pyInt? (pySlice58 f))) with
    | none => norm_num
    | some m =>
        show m + 1 ≤ 1000
        have hm : m ≤ 999 := by
          refine pyListMax?_le hmx ?_
          intro x hx
          obtain ⟨f, _, hf⟩ := List.mem_filterMap.mp hx
          have := pyInt?_lt_of_short (pySlice58 f) x (pySlice58_length_le f) hf
          omega
        omega

theorem maxPhotoJpgNum_ge (dir : List String) (f : String) (n : Nat)
    (hf : f ∈ dir) (hn : photoJpgNum? f = some n) : n ≤ maxPhotoJpgNum dir := by
  unfold maxPhotoJpgNum
  exact le_foldl_max_nat _ n 0 (List.mem_filterMap.mpr ⟨f, hf, hn⟩)

theorem getNextPhotoNumber_all_fail (dir : List String)
    (h : ∀ f ∈ dir, pyInt? (pySlice58 f) = none) :
    getNextPhotoNumber dir = 1 := by
  unfold getNextPhotoNumber
  by_cases he : (dir.filter isJpgPhoto).isEmpty
  · simp [he]
  · simp only [he, Bool.false_eq_true, if_false]
    have hnil : (dir.filter isJpgPhoto).filterMap
        (fun f => pyInt? (pySlice58 f)) = [] := by
      rw [List.filterMap_eq_nil_iff]
      intro f hf
      exact h f (List.mem_of_mem_filter hf)
    rw [hnil]
    rfl

/-! ### Claim C1 -/

/-- C1: when a supervised capture starts but does not complete within the
total timeout, `capture_single_dng` stops and closes the device handle, sets
the session state to uninitialized, and returns a timed-out result marked
restart-required; the `/capture_single_dng` route then makes exactly one
automatic `initialize_camera` attempt while still surfacing the failure. -/
theorem claim1_timeout_forced_reset_single_reinit
    (st : CamState) (env : CapEnv) (initOk : Bool) (dngDir : List String)
    (hInit : st.camInit = true) (hNotCap : st.capturing = false)
    (hStarted : env.started = true) (hHung : env.completedOk = false)
    (hCleanup : env.cleanup = .ok) :
    (captureSingleDng st env).2.1.errorKind = some .timedOut ∧
    (captureSingleDng st env).2.1.restartRequired = true ∧
    (captureSingleDng st env).2.1.success = false ∧
    (captureSingleDng st env).2.2 = ["stop", "close"] ∧
    (captureSingleDng st env).1.picamPresent = false ∧
    (captureSingleDng st env).1.camInit = false ∧
    (captureSingleDng st env).1.capturing = false ∧
    (captureSingleDngRoute st env initOk dngDir).reinitAttempts = 1 ∧
    (captureSingleDngRoute st env initOk dngDir).result.success = false := by
  simp [captureSingleDng, captureSingleDngRoute, hInit, hNotCap, hStarted,
    hHung, hCleanup]

theorem claim1_witness :
    (captureSingleDng ⟨true, true, false, 7⟩ ⟨true, false, true, .ok⟩).2.1.errorKind
      = some .timedOut ∧
    (captureSingleDng ⟨true, true, false, 7⟩ ⟨true, false, true, .ok⟩).1.camInit
      = false ∧
    (captureSingleDngRoute ⟨true, true, false, 7⟩ ⟨true, false, true, .ok⟩ true
      []).reinitAttempts = 1 :=
  ⟨(claim1_timeout_forced_reset_single_reinit ⟨true, true, false, 7⟩
      ⟨true, false, true, .ok⟩ true [] rfl rfl rfl rfl rfl).1,
   (claim1_timeout_forced_reset_single_reinit ⟨true, true, false, 7⟩
      ⟨true, false, true, .ok⟩ true [] rfl rfl rfl rfl rfl).2.2.2.2.2.1,
   (claim1_timeout_forced_reset_single_reinit ⟨true, true, false, 7⟩
      ⟨true, false, true, .ok⟩ true [] rfl rfl rfl rfl rfl).2.2.2.2.2.2.2.1⟩

/-! ### Claim C2 -/

/-- C2: when the capture thread never signals "started" within the start
timeout, `capture_single_dng` returns the failed-to-start result, performs no
stop, close or reconfigure, leaves the handle, initialization flag and photo
counter untouched, and does not leave the `capturing` flag held. -/
theorem claim2_failed_start_no_device_mutation (st : CamState) (env : CapEnv)
    (hInit : st.camInit = true) (hNotCap : st.capturing = false)
    (hNoStart : env.started = false) :
    (captureSingleDng st env).2.1.errorKind = some .failedToStart ∧
    (captureSingleDng st env).2.1.success = false ∧
    (captureSingleDng st env).2.2 = [] ∧
    (captureSingleDng st env).1.capturing = false ∧
    (captureSingleDng st env).1.picamPresent = st.picamPresent ∧
    (captureSingleDng st env).1.camInit = st.camInit ∧
    (captureSingleDng st env).1.photoCounter = st.photoCounter := by
  simp [captureSingleDng, hInit, hNotCap, hNoStart]

theorem claim2_witness :
    (captureSingleDng ⟨true, true, false, 4⟩ ⟨false, true, true, .ok⟩).2.1.errorKind
      = some .failedToStart ∧
    (captureSingleDng ⟨true, true, false, 4⟩ ⟨false, true, true, .ok⟩).2.2 = [] ∧
    (captureSingleDng ⟨true, true, false, 4⟩ ⟨false, true, true, .ok⟩).1.capturing
      = false :=
  ⟨(claim2_failed_start_no_device_mutation ⟨true, true, false, 4⟩
      ⟨false, true, true, .ok⟩ rfl rfl rfl).1,
   (claim2_failed_start_no_device_mutation ⟨true, true, false, 4⟩
      ⟨false, true, true, .ok⟩ rfl rfl rfl).2.2.1,
   (claim2_failed_start_no_device_mutation ⟨true, true, false, 4⟩
      ⟨false, true, true, .ok⟩ rfl rfl rfl).2.2.2.1⟩

/-! ### Claim C3 -/

/-- C3: the photo counter is incremented only after a capture is confirmed
successful (file verified to exist) and never before or during the attempt;
over any serial sequence of supervised captures the assigned numbers are
consecutive — strictly increasing, no duplicates, no gaps — and a failed
capture consumes no number.  The viewfinder's `on_shutter_pressed` follows
the same discipline for `photos_taken`. -/
theorem claim3_counter_increment_after_confirm (st : CamState)
    (envs : List CapEnv) :
    ((runCaptures st envs).2.filterMap id =
      List.range' st.photoCounter ((runCaptures st envs).2.filterMap id).length) ∧
    ((runCaptures st envs).1.photoCounter =
      st.photoCounter + ((runCaptures st envs).2.filterMap id).length) ∧
    (∀ env : CapEnv, (captureSingleDng st env).2.1.success = true →
      env.fileExists = true ∧
      (captureSingleDng st env).2.1.photoNumber = some st.photoCounter ∧
      (captureSingleDng st env).1.photoCounter = st.photoCounter + 1) ∧
    (∀ env : CapEnv, (captureSingleDng st env).2.1.success = false →
      (captureSingleDng st env).2.1.photoNumber = none ∧
      (captureSingleDng st env).1.photoCounter = st.photoCounter) ∧
    (∀ (vs : VfState) (c0 : CamCtrls),
      (onShutterPressed vs c0 true).state.photosTaken = vs.photosTaken + 1 ∧
      (onShutterPressed vs c0 false).state.photosTaken = vs.photosTaken ∧
      (onShutterPressed vs c0 true).assignedNumber = vs.photosTaken + 1) :=
  ⟨(runCaptures_numbers envs st).1, (runCaptures_numbers envs st).2,
   fun env h => captureSingleDng_success_spec st env h,
   fun env h => captureSingleDng_failure_spec st env h,
   fun vs c0 => ⟨by simp [onShutterPressed], by simp [onShutterPressed],
     by simp [onShutterPressed]⟩⟩

theorem claim3_witness :
    (runCaptures ⟨true, true, false, 5⟩
      [⟨true, true, true, .ok⟩, ⟨false, true, true, .ok⟩,
       ⟨true, true, true, .ok⟩]).2 = [some 5, none, some 6] ∧
    (captureSingleDng ⟨true, true, false, 5⟩
      ⟨true, true, true, .ok⟩).2.1.photoNumber = some 5 ∧
    (captureSingleDng ⟨true, true, false, 5⟩
      ⟨false, true, true, .ok⟩).1.photoCounter = 5 :=
  ⟨by decide,
   ((claim3_counter_increment_after_confirm ⟨true, true, false, 5⟩ []).2.2.1
      ⟨true, true, true, .ok⟩ (by decide)).2.1,
   ((claim3_counter_increment_after_confirm ⟨true, true, false, 5⟩ []).2.2.2.1
      ⟨false, true, true, .ok⟩ (by decide)).2⟩

/-! ### Claim C4 -/

/-- C4 counterexample: the claim fails twice on the code.  In
`examples/dng_camera_led.py` the counter is seeded as `len(files) + 1`, not
`max(existing numbers) + 1`: on a directory holding only `photo005.dng` the
seed is 2 while `max + 1` is 6.  And `Pi_cam_raw.py` rescans the directory on
every capture rather than advancing in memory: after one capture on
`["photo001.jpg"]` (which assigns 2), an externally added `photo050.jpg` makes
the next capture assign 51 where an in-memory allocator would assign 3. -/
theorem claim4_counterexample :
    photoCounterSeed ["photo005.dng"] = 2 ∧
    maxPhotoDngNum ["photo005.dng"] = 5 ∧
    photoCounterSeed ["photo005.dng"] ≠ maxPhotoDngNum ["photo005.dng"] + 1 ∧
    (fastCapturePhotoNumbering ["photo001.jpg"]).1 = 2 ∧
    (fastCapturePhotoNumbering ["photo001.jpg"]).2 =
      ["photo001.jpg", "photo002.jpg"] ∧
    (fastCapturePhotoNumbering
      ((fastCapturePhotoNumbering ["photo001.jpg"]).2 ++ ["photo050.jpg"])).1
      = 51 := by
  refine ⟨by decide, by decide, by decide, by decide, by decide, by decide⟩

/-- C4 as amended: `examples/dng_camera_led.py` scans the output directory
exactly once at initialization, seeding the counter with
`count(existing dng files) + 1` (not `max + 1`), and thereafter the counter
advances purely in memory, by one per confirmed capture; `Pi_cam_raw.py` has
no in-memory allocator at all — every capture rescans the directory via
`get_next_photo_number`. -/
theorem claim4_amended :
    (∀ (st : CamState) (dngDir : List String), st.camInit = false →
      (initCamera st true dngDir).1.photoCounter =
        (getDngFiles dngDir).length + 1) ∧
    (∀ (st : CamState) (env : CapEnv),
      (captureSingleDng st env).2.1.success = true →
      (captureSingleDng st env).1.photoCounter = st.photoCounter + 1) ∧
    (∀ dir : List String,
      (fastCapturePhotoNumbering dir).1 = getNextPhotoNumber dir) ∧
    photoCounterSeed ["photo005.dng"] ≠ maxPhotoDngNum ["photo005.dng"] + 1 := by
  refine ⟨?_, fun st env h => (captureSingleDng_success_spec st env h).2.2,
    fun dir => rfl, by decide⟩
  intro st dngDir h
  simp [initCamera, h, photoCounterSeed]

theorem claim4_witness :
    (initCamera ⟨false, false, false, 0⟩ true ["photo005.dng"]).1.photoCounter
      = 2 ∧
    (captureSingleDng ⟨true, true, false, 3⟩ ⟨true, true, true, .ok⟩).1.photoCounter
      = 4 :=
  ⟨(claim4_amended.1 ⟨false, false, false, 0⟩ ["photo005.dng"] rfl).trans
     (by decide),
   (claim4_amended.2.1 ⟨true, true, false, 3⟩ ⟨true, true, true, .ok⟩
     (by decide)).trans (by decide)⟩

/-! ### Claim C5 -/

/-- C5 counterexample: `simple_dng_capture` — the function the
`/fast_capture` route actually invokes — touches the device (capture request,
JPG save, DNG save, request release) without ever acquiring `camera_lock`, so
not every device-touching call is serialized by the lock. -/
theorem claim5_counterexample :
    devOpsUnderLock 0 simpleDngCaptureActs = false ∧
    fastCaptureRouteActs = simpleDngCaptureActs ∧
    simpleDngCaptureActs.contains LockAct.acq = false := by
  decide

/-- C5 as amended: the device-touching capture calls of
`working_code/Pi_cam.py` and `fast_capture_photo` of `Pi_cam_raw.py` do run
entirely under the single `camera_lock`, but `simple_dng_capture` — wired to
the `/fast_capture` route — performs its device operations with no lock
held. -/
theorem claim5_amended :
    devOpsUnderLock 0 fastCapturePhotoActs = true ∧
    devOpsUnderLock 0 capturePhotoNormalActs = true ∧
    devOpsUnderLock 0 capturePhotoHighrezActs = true ∧
    devOpsUnderLock 0 captureDngActs = true ∧
    devOpsUnderLock 0 fastCaptureRouteActs = false := by
  decide

/-! ### Claim C6 -/

/-- C6 counterexample: `raw_queue = queue.Queue()` is created with the
default `maxsize` of 0, i.e. unbounded — not a bounded capacity of 10.  With
10 items already queued it is not full and `put` still succeeds immediately,
so no queue-full rejection can ever occur; a queue with `maxsize=10` would
block there instead. -/
theorem claim6_counterexample :
    rawQueueMaxsize = 0 ∧
    rawQueueMaxsize ≠ 10 ∧
    pyQueueFull rawQueueMaxsize 10 = false ∧
    pyQueuePut rawQueueMaxsize (List.replicate 10 (0 : Nat)) 1 =
      some (List.replicate 10 (0 : Nat) ++ [1]) ∧
    pyQueuePut dngQueueMaxsize (List.replicate 10 (0 : Nat)) 1 = none := by
  decide

/-- C6 as amended: enqueueing a raw item never blocks the capture path, but
only because the background queue is unbounded — it can never be full, so no
queue-full result and no backpressure policy exist; the capacity-10 queue
(`dng_queue` of `working_code/Pi_cam.py`) is declared but never used. -/
theorem claim6_amended :
    (∀ (items : List Nat) (x : Nat),
      pyQueuePut rawQueueMaxsize items x = some (items ++ [x])) ∧
    dngQueueMaxsize = 10 :=
  ⟨fun items x => by simp [pyQueuePut, pyQueueFull, rawQueueMaxsize], rfl⟩

/-! ### Claim C7 -/

/-- C7: for every processed queue item the uncompressed `.npy` raw backup is
written first — any rich-container write in the trace is preceded by it; a
raw-backup failure is never silent (the error is logged) and is never
subsumed by a fallback success (no encode happens at all on that path); when
the pidng encoder fails but the fallback works, the portable `.npz`
compressed-array file is written; and a fallback success always has the raw
backup already on disk. -/
theorem claim7_raw_backup_first_and_distinct (env : ProcEnv) :
    (((processQueueItem env).trace.contains ProcEv.dngWrite ∨
      (processQueueItem env).trace.contains ProcEv.npzWrite) →
      (processQueueItem env).trace.head? = some .npyWrite) ∧
    (env.npySaveOk = false →
      (processQueueItem env).errorLogged = true ∧
      (processQueueItem env).method = none ∧
      (processQueueItem env).npyWritten = false) ∧
    (env.npySaveOk = true ∧ env.pidngOk = true →
      (processQueueItem env).method = some .pidng) ∧
    (env.npySaveOk = true ∧ env.pidngOk = false ∧ env.npzOk = true →
      (processQueueItem env).method = some .npzFallback) ∧
    ((processQueueItem env).method = some .npzFallback →
      (processQueueItem env).npyWritten = true) := by
  rcases env with ⟨a, b, c⟩
  cases a <;> cases b <;> cases c <;> decide

theorem claim7_witness :
    (processQueueItem ⟨true, false, true⟩).method = some .npzFallback ∧
    (processQueueItem ⟨false, true, true⟩).errorLogged = true ∧
    (processQueueItem ⟨false, true, true⟩).method = none ∧
    (processQueueItem ⟨true, true, true⟩).trace.head? = some .npyWrite :=
  ⟨(claim7_raw_backup_first_and_distinct ⟨true, false, true⟩).2.2.2.1
     ⟨rfl, rfl, rfl⟩,
   ((claim7_raw_backup_first_and_distinct ⟨false, true, true⟩).2.1 rfl).1,
   ((claim7_raw_backup_first_and_distinct ⟨false, true, true⟩).2.1 rfl).2.1,
   (claim7_raw_backup_first_and_distinct ⟨true, true, true⟩).1
     (Or.inl (by decide))⟩

/-! ### Claim C8 -/

/-- C8 counterexample: the claimed step order does not match the code.  In
the viewfinder's switch back to Preview the code sleeps ~200 ms between stop
and configure (the claim says no settle delay for Preview), and it re-applies
the surviving settings after configure but before restarting the stream (the
claim says after the restart).  In `capture_dng` of `working_code/Pi_cam.py`
configure follows stop with no settle sleep at all (the sleeps come after
start), and no settings are ever re-applied. -/
theorem claim8_counterexample :
    vfSwitchToPreview false ≠ claimedSwitchTrace .preview false ∧
    vfSwitchToPreview true ≠ claimedSwitchTrace .preview true ∧
    (vfSwitchToPreview false).take 6 =
      [.camStop, .pySleep 200, .camConfigure .preview, .controlsRestore,
       .controlsAfMode 2, .camStart] ∧
    (claimedSwitchTrace .preview false).take 3 =
      [.camStop, .camConfigure .preview, .camStart] ∧
    picamCaptureDngTrace.take 2 = [.camStop, .camConfigure .raw] ∧
    picamCaptureDngTrace.contains VfEv.controlsRestore = false := by
  decide

/-- C8 as amended: in the viewfinder a mode switch is stop; ~200 ms settle
sleep (both entering high-res mode and returning to Preview); apply the new
configuration; when returning to Preview, re-apply the surviving settings
(current analog gain, then the autofocus-lock state) after configure and
before the restart; restart; then a post-start stabilization sleep (~500 ms
in high-res, ~300 ms back in preview).  In `working_code/Pi_cam.py` the
switch is stop; configure; start; stabilization sleep (~300 ms raw, ~200 ms
back to normal), with no re-applied settings. -/
theorem claim8_amended : ∀ fl : Bool,
    vfSwitchToHighres.take 3 =
      [.camStop, .pySleep 200, .camConfigure .highres] ∧
    vfSwitchToHighres.drop 3 = [.camStart, .pySleep 500] ∧
    vfSwitchToHighres.contains VfEv.controlsRestore = false ∧
    (vfSwitchToPreview fl).take 3 =
      [.camStop, .pySleep 200, .camConfigure .preview] ∧
    (vfSwitchToPreview fl).drop 3 =
      [.controlsRestore, .controlsAfMode (if fl then 0 else 2), .camStart,
       .pySleep 300] ∧
    picamCaptureDngTrace =
      [.camStop, .camConfigure .raw, .camStart, .pySleep 300, .camCaptureFile,
       .camStop, .camConfigure .preview, .camStart, .pySleep 200] ∧
    picamCaptureDngTrace.contains VfEv.controlsRestore = false := by
  intro fl
  cases fl <;> decide

/-! ### Claim C9 -/

/-- C9: a completed Preview → still → Preview round trip in
`on_shutter_pressed` restores the prior settings exactly — the applied analog
gain equals the pre-switch `current_gain`, the applied autofocus mode again
reflects the pre-switch `focus_locked` flag (0 when locked, 2 when not), and
neither remembered value is disturbed by the trip. -/
theorem claim9_round_trip_restores_settings (vs : VfState) (c0 : CamCtrls) :
    (onShutterPressed vs c0 true).ctrls.analogueGain = vs.currentGain ∧
    (onShutterPressed vs c0 true).ctrls.afMode =
      (if vs.focusLocked then 0 else 2) ∧
    (onShutterPressed vs c0 true).state.currentGain = vs.currentGain ∧
    (onShutterPressed vs c0 true).state.focusLocked = vs.focusLocked := by
  simp [onShutterPressed]

/-! ### Claim C10 -/

/-- C10: `get_next_photo_number` returns 1 when no filename's characters at
positions 5-7 parse as an integer; only zero-padded three-digit numbers are
recognized (`photo012.jpg` yields 13, `photo12.jpg` is ignored); and for any
directory containing a file numbered 1000 or more the returned value cannot
be `max(existing numbers) + 1` — and can collide with an existing file's
number, as with `photo9999.jpg` and `photo1000.jpg`, where 1000 is
returned although `photo1000.jpg` exists. -/
theorem claim10_three_char_slice_parsing :
    (∀ dir : List String, (∀ f ∈ dir, pyInt? (pySlice58 f) = none) →
      getNextPhotoNumber dir = 1) ∧
    (∀ (dir : List String) (f : String) (n : Nat), f ∈ dir →
      photoJpgNum? f = some n → 1000 ≤ n →
      getNextPhotoNumber dir ≠ (maxPhotoJpgNum dir : Int) + 1) ∧
    getNextPhotoNumber ["photo012.jpg"] = 13 ∧
    getNextPhotoNumber ["photo12.jpg"] = 1 ∧
    getNextPhotoNumber ["photo9999.jpg", "photo1000.jpg"] = 1000 ∧
    photoJpgNum? "photo1000.jpg" = some 1000 := by
  refine ⟨getNextPhotoNumber_all_fail, ?_, by decide, by decide, by decide,
    by decide⟩
  intro dir f n hf hn h1000 heq
  have h1 := getNextPhotoNumber_le dir
  have h2 := maxPhotoJpgNum_ge dir f n hf hn
  rw [heq] at h1
  omega

theorem claim10_witness :
    getNextPhotoNumber ["photo1000.jpg"] ≠
      (maxPhotoJpgNum ["photo1000.jpg"] : Int) + 1 ∧
    getNextPhotoNumber ["notes.txt"] = 1 :=
  ⟨claim10_three_char_slice_parsing.2.1 ["photo1000.jpg"] "photo1000.jpg" 1000
     (by decide) (by decide) (by decide),
   claim10_three_char_slice_parsing.1 ["notes.txt"] (by decide)⟩
